import Mathlib

/-!
Verification of `odak.learn.wave.propagators.propagator` against its
natural-language specification.

The propagator class is embedded shallowly:

* torch tensors of rank 2 become `Tensor2 α`: an explicit shape `(rows, cols)`
  together with an entry function; complex scalars are modelled by an
  arbitrary `Field α` (instantiated with `ℚ` for concrete evaluation).
* The external collaborators that are not part of the repository's source
  (`get_propagation_kernel`, `torch.fft`, `zero_pad`, `crop_center`,
  `circular_binary_mask`) are either taken as parameters (`G`, `ω`) or
  modelled from the specification, as marked in their doc comments.
* The mutable instance becomes `PState α`, `__init__` becomes `init`, and
  `__call__` becomes `propCall`, a function from a state to a result, a new
  state, and the list of kernel-generator invocations it performed (each
  tagged with the resolved (depth, channel) pair).
* Python / torch indexing, including negative-index wraparound, is `pyIdx`;
  the implicit exceptions of the source (IndexError on an out-of-range list
  or tensor index, UnboundLocalError when `H` is never assigned) are named
  by the role they play, following the specification's error taxonomy.
-/

/-- A rank-2 tensor: an explicit shape together with a total entry function.
Entries outside the shape are irrelevant; operations only read entries
inside the declared shape of their arguments. -/
structure Tensor2 (α : Type) where
  rows : ℕ
  cols : ℕ
  entry : ℕ → ℕ → α

/-- Extensionality for `Tensor2`. -/
theorem Tensor2.extEq {α : Type} {f g : Tensor2 α} (hr : f.rows = g.rows)
    (hc : f.cols = g.cols) (he : ∀ i j, f.entry i j = g.entry i j) : f = g := by
  obtain ⟨fr, fc, fe⟩ := f
  obtain ⟨gr, gc, ge⟩ := g
  simp only at hr hc he
  subst hr
  subst hc
  have he' : fe = ge := funext fun i => funext fun j => he i j
  rw [he']

/-- Scalar multiple of a tensor, entrywise (`a * field` in torch). -/
def sm {α : Type} [Mul α] (a : α) (f : Tensor2 α) : Tensor2 α :=
  ⟨f.rows, f.cols, fun i j => a * f.entry i j⟩

/-- An all-zero tensor of the given shape. -/
def zeros (α : Type) [Zero α] (m n : ℕ) : Tensor2 α :=
  ⟨m, n, fun _ _ => 0⟩

/-- Elementwise product of two tensors (`*` in torch; the operands always
have equal shapes in the modelled code, where broadcast is the identity). -/
def pmul {α : Type} [Mul α] (f g : Tensor2 α) : Tensor2 α :=
  ⟨max f.rows g.rows, max f.cols g.cols, fun i j => f.entry i j * g.entry i j⟩

/-- Modelled from the spec: `odak.learn.tools.zero_pad`, which is not under
`src/`. Per the specification the field is zero-padded symmetrically with a
fixed padding factor of 2 per axis, the original field sitting centered in
the padded buffer. -/
def zero_pad {α : Type} [Zero α] (f : Tensor2 α) : Tensor2 α :=
  ⟨2 * f.rows, 2 * f.cols, fun i j =>
    if f.rows / 2 ≤ i ∧ i < f.rows / 2 + f.rows ∧ f.cols / 2 ≤ j ∧ j < f.cols / 2 + f.cols
    then f.entry (i - f.rows / 2) (j - f.cols / 2) else 0⟩

/-- Modelled from the spec: `odak.learn.tools.crop_center`, which is not
under `src/`. Per the specification it crops back to the original unpadded
resolution (half the padded size per axis), taking the centered region. -/
def crop_center {α : Type} (f : Tensor2 α) : Tensor2 α :=
  ⟨f.rows / 2, f.cols / 2, fun i j =>
    f.entry (i + (f.rows - f.rows / 2) / 2) (j + (f.cols - f.cols / 2) / 2)⟩

/-- Modelled from the spec: `torch.fft.fftshift`, an external primitive.
A circular roll by half the size along each axis. -/
def fftshift {α : Type} (f : Tensor2 α) : Tensor2 α :=
  ⟨f.rows, f.cols, fun i j =>
    f.entry ((i + f.rows - f.rows / 2) % f.rows) ((j + f.cols - f.cols / 2) % f.cols)⟩

/-- Modelled from the spec: `torch.fft.ifftshift`, an external primitive.
The inverse circular roll. -/
def ifftshift {α : Type} (f : Tensor2 α) : Tensor2 α :=
  ⟨f.rows, f.cols, fun i j =>
    f.entry ((i + f.rows / 2) % f.rows) ((j + f.cols / 2) % f.cols)⟩

/-- Modelled from the spec: `torch.fft.fft2`, an external primitive. The
2-D discrete Fourier transform, with `ω N` standing for the primitive root
`exp(-2πi/N)` of the concrete implementation; every claim proved below
holds for an arbitrary choice of `ω`. -/
def fft2 {α : Type} [Field α] (ω : ℕ → α) (f : Tensor2 α) : Tensor2 α :=
  ⟨f.rows, f.cols, fun k l =>
    ∑ j ∈ Finset.range f.rows, ∑ m ∈ Finset.range f.cols,
      ω f.rows ^ (j * k) * (ω f.cols ^ (m * l) * f.entry j m)⟩

/-- Modelled from the spec: `torch.fft.ifft2`, an external primitive. The
inverse 2-D discrete Fourier transform with the usual 1/(N·M) factor. -/
def ifft2 {α : Type} [Field α] (ω : ℕ → α) (f : Tensor2 α) : Tensor2 α :=
  ⟨f.rows, f.cols, fun j m =>
    (∑ k ∈ Finset.range f.rows, ∑ l ∈ Finset.range f.cols,
      (ω f.rows)⁻¹ ^ (j * k) * ((ω f.cols)⁻¹ ^ (m * l) * f.entry k l)) /
    ((f.rows : α) * (f.cols : α))⟩

/-- Modelled from the spec: `odak.learn.tools.circular_binary_mask nx ny size`,
which is not under `src/`. A binary mask of shape `(nx, ny)` holding a circle
of diameter `size` centered in the buffer: the condition
`(i - (nx-1)/2)² + (j - (ny-1)/2)² ≤ (size/2)²` is stated over `ℤ` after
scaling both sides by 4. -/
def circular_binary_mask {α : Type} [Zero α] [One α] (nx ny size : ℕ) : Tensor2 α :=
  ⟨nx, ny, fun i j =>
    if (2 * (i : ℤ) - ((nx : ℤ) - 1)) ^ 2 + (2 * (j : ℤ) - ((ny : ℤ) - 1)) ^ 2
        ≤ (size : ℤ) ^ 2
    then 1 else 0⟩

/-- The constructor arguments of `propagator.__init__` that are plain data
(lines 14-30 of the source). `number_of_channels` is derived from the
wavelength list exactly as the source does (`len(self.wavelengths)`). -/
structure Config where
  resolution : ℕ × ℕ
  wavelengths : List ℚ
  pixel_pitch : ℚ
  resolution_factor : ℕ
  number_of_frames : ℕ
  number_of_depth_layers : ℕ
  volume_depth : ℚ
  image_location_offset : ℚ
  propagation_type : String
  propagator_type : String
  zero_mode_distance : ℚ

/-- Source line 73: `self.number_of_channels = len(self.wavelengths)`. -/
def Config.number_of_channels (c : Config) : ℕ := c.wavelengths.length

/-- `torch.linspace` over exact rationals: `steps` evenly spaced points from
`a` to `b`; a single step yields `[a]`. -/
def linspace (a b : ℚ) (steps : ℕ) : List ℚ :=
  if steps = 0 then []
  else if steps = 1 then [a]
  else (List.range steps).map (fun i : ℕ => a + (b - a) * (i : ℚ) / ((steps : ℚ) - 1))

/-- Source lines 87-92, `propagator.init_distances`:
`torch.linspace(-volume_depth / 2, volume_depth / 2, number_of_depth_layers)
 + image_location_offset`. -/
def init_distances (c : Config) : List ℚ :=
  (linspace (-c.volume_depth / 2) (c.volume_depth / 2) c.number_of_depth_layers).map
    (fun d => d + c.image_location_offset)

/-- The failure modes of `__call__`, named by the role they play following
the specification's error taxonomy. In the source these surface as implicit
Python exceptions: an IndexError raised by `self.distances[depth_id]`, an
IndexError raised by indexing the channel dimension, and an
UnboundLocalError when the variable `H` is never assigned because
`propagator_type` matches neither branch. -/
inductive PErr where
  | depthIndexError
  | channelIndexError
  | unknownPropagatorType
deriving DecidableEq

/-- The argument tuple of one invocation of the external collaborator
`get_propagation_kernel` (its keyword arguments at source lines 257-288). -/
structure KernelArgs where
  nu : ℕ
  nv : ℕ
  dx : ℚ
  wavelength : ℚ
  distance : ℚ
  propagation_type : String
  scale : ℕ
deriving DecidableEq

/-- Python / torch sequence indexing of a sequence of length `len`:
indices in `[0, len)` are used directly, indices in `[-len, 0)` wrap around
to `len + i`, anything else raises an IndexError (modelled as `none`). -/
def pyIdx (len : ℕ) (i : ℤ) : Option ℕ :=
  if 0 ≤ i ∧ i < (len : ℤ) then some i.toNat
  else if -(len : ℤ) ≤ i ∧ i < 0 then some ((len : ℤ) + i).toNat
  else none

/-- The mutable state of one `propagator` instance: the configuration plus
the instance attributes assigned in `__init__` (source lines 66-84). The
kernel cache `kernels` and its flag tensor `generated_kernels` are total
functions over the resolved (depth, channel) indices. -/
structure PState (α : Type) where
  cfg : Config
  distances : List ℚ
  generated_kernels : ℕ → ℕ → Bool
  kernels : ℕ → ℕ → Tensor2 α
  channel_power : Tensor2 α
  aperture : Tensor2 α
  phase_scale : List α

/-- Source lines 152-179, `propagator.set_aperture`. With no aperture the
default size is `max(resolution[0]*factor, resolution[1]*factor)` and a
circular binary mask of twice the scaled resolution is stored; a supplied
aperture is zero-padded. Only the `aperture` attribute is assigned. -/
def set_aperture {α : Type} [Field α] (s : PState α) (aperture : Option (Tensor2 α))
    (aperture_size : Option ℕ) : PState α :=
  match aperture with
  | none =>
    let size := aperture_size.getD
      (max (s.cfg.resolution.1 * s.cfg.resolution_factor)
           (s.cfg.resolution.2 * s.cfg.resolution_factor))
    { s with aperture := (circular_binary_mask
        (s.cfg.resolution.1 * s.cfg.resolution_factor * 2)
        (s.cfg.resolution.2 * s.cfg.resolution_factor * 2) size) }
  | some a => { s with aperture := zero_pad a }

/-- Source lines 14-84, `propagator.__init__`: stores the configuration,
computes the depth schedule, creates the kernel cache with every
`generated_kernels` flag false, defaults the channel power to an identity
matrix when none is supplied, sets the phase scale, and finally calls
`set_aperture(aperture)`. -/
def init {α : Type} [Field α] (c : Config) (laser_channel_power : Option (Tensor2 α))
    (aperture : Option (Tensor2 α)) : PState α :=
  let s0 : PState α :=
    { cfg := c
      distances := init_distances c
      generated_kernels := fun _ _ => false
      kernels := fun _ _ =>
        zeros α (c.resolution.1 * c.resolution_factor * 2)
          (c.resolution.2 * c.resolution_factor * 2)
      channel_power := laser_channel_power.getD
        ⟨c.number_of_frames, c.number_of_channels, fun i j => if i = j then 1 else 0⟩
      aperture := zeros α 0 0
      phase_scale := [1, 1, 1] }
  set_aperture s0 aperture none

/-- Source lines 224-233, `propagator.propagate`:
zero-pad, centered forward transform, multiply by `H * aperture`, centered
inverse transform, crop back to the unpadded resolution. -/
def propagate {α : Type} [Field α] (ω : ℕ → α) (aperture : Tensor2 α)
    (field H : Tensor2 α) : Tensor2 α :=
  crop_center (ifftshift (ifft2 ω (ifftshift
    (pmul (pmul H aperture) (fftshift (fft2 ω (fftshift (zero_pad field))))))))

/-- Source lines 236-295, `propagator.__call__`. `G` is the external
collaborator `get_propagation_kernel` and `ω` the root of unity of the FFT
primitive. Returns the result (or the error raised), the new instance
state, and the list of collaborator invocations performed, each tagged
with the resolved (depth, channel) pair it was made for. In the cached
branch the source takes `self.kernels[depth_id, channel_id].detach().clone()`,
a numerically identical copy of the cached tensor. -/
def propCall {α : Type} [Field α] (G : KernelArgs → Tensor2 α) (ω : ℕ → α)
    (s : PState α) (input_field : Tensor2 α) (channel_id depth_id : ℤ) :
    Except PErr (Tensor2 α) × PState α × List ((ℕ × ℕ) × KernelArgs) :=
  match pyIdx s.distances.length depth_id with
  | none => (Except.error PErr.depthIndexError, s, [])
  | some d =>
    let distance := s.distances.getD d 0
    match pyIdx s.cfg.number_of_channels channel_id with
    | none => (Except.error PErr.channelIndexError, s, [])
    | some c =>
      if s.generated_kernels d c then
        (Except.ok (propagate ω s.aperture input_field (s.kernels d c)), s, [])
      else
        if s.cfg.propagator_type = "forward" then
          let args : KernelArgs :=
            ⟨input_field.rows * 2, input_field.cols * 2, s.cfg.pixel_pitch,
             s.cfg.wavelengths.getD c 0, distance, s.cfg.propagation_type,
             s.cfg.resolution_factor⟩
          let H := G args
          (Except.ok (propagate ω s.aperture input_field H),
           { s with
             kernels := fun d' c' => if d' = d ∧ c' = c then H else s.kernels d' c'
             generated_kernels := fun d' c' =>
               if d' = d ∧ c' = c then true else s.generated_kernels d' c' },
           [((d, c), args)])
        else if s.cfg.propagator_type = "back and forth" then
          let args_fw : KernelArgs :=
            ⟨input_field.rows * 2, input_field.cols * 2, s.cfg.pixel_pitch,
             s.cfg.wavelengths.getD c 0, s.cfg.zero_mode_distance,
             s.cfg.propagation_type, s.cfg.resolution_factor⟩
          let distance_back :=
            -(s.cfg.zero_mode_distance + s.cfg.image_location_offset - distance)
          let args_bk : KernelArgs :=
            ⟨input_field.rows * 2, input_field.cols * 2, s.cfg.pixel_pitch,
             s.cfg.wavelengths.getD c 0, distance_back,
             s.cfg.propagation_type, s.cfg.resolution_factor⟩
          let H := pmul (G args_fw) (G args_bk)
          (Except.ok (propagate ω s.aperture input_field H),
           { s with
             kernels := fun d' c' => if d' = d ∧ c' = c then H else s.kernels d' c'
             generated_kernels := fun d' c' =>
               if d' = d ∧ c' = c then true else s.generated_kernels d' c' },
           [((d, c), args_fw), ((d, c), args_bk)])
        else
          (Except.error PErr.unknownPropagatorType, s, [])

/-- The operations a client can perform on a live `propagator` instance
that touch its state (`get_laser_powers` and `get_kernels` are pure reads
and are omitted). -/
inductive Op (α : Type) where
  | callOp (input_field : Tensor2 α) (channel_id depth_id : ℤ)
  | setApertureOp (aperture : Option (Tensor2 α)) (aperture_size : Option ℕ)
  | setLaserPowersOp (laser_power : Tensor2 α)

/-- One step of the instance: the new state and the collaborator
invocations performed. -/
def stepOp {α : Type} [Field α] (G : KernelArgs → Tensor2 α) (ω : ℕ → α)
    (s : PState α) : Op α → PState α × List ((ℕ × ℕ) × KernelArgs)
  | Op.callOp f cid did => (propCall G ω s f cid did).2
  | Op.setApertureOp a asz => (set_aperture s a asz, [])
  | Op.setLaserPowersOp p => ({ s with channel_power := p }, [])

/-- Run a sequence of operations, concatenating the collaborator
invocations they perform. -/
def runOps {α : Type} [Field α] (G : KernelArgs → Tensor2 α) (ω : ℕ → α) :
    PState α → List (Op α) → PState α × List ((ℕ × ℕ) × KernelArgs)
  | s, [] => (s, [])
  | s, op :: ops =>
    let r := stepOp G ω s op
    let r2 := runOps G ω r.1 ops
    (r2.1, r.2 ++ r2.2)

/-- How many collaborator invocations in a trace were made for the
resolved pair `p`. -/
def countCalls (p : ℕ × ℕ) (l : List ((ℕ × ℕ) × KernelArgs)) : ℕ :=
  l.countP (fun x => decide (x.1 = p))

/-- The number of collaborator invocations one cache fill performs:
one for the `forward` strategy, two legs otherwise. -/
def legs (c : Config) : ℕ := if c.propagator_type = "forward" then 1 else 2

/-! ### Helper lemmas about the embedding -/

theorem linspace_length (a b : ℚ) (n : ℕ) : (linspace a b n).length = n := by
  unfold linspace
  split
  next h => simp [h]
  next =>
    split
    next h => simp [h]
    next => simp

theorem linspace_pairwise (a b : ℚ) (n : ℕ) (h : a ≤ b) :
    (linspace a b n).Pairwise (fun x y => x ≤ y) := by
  unfold linspace
  split
  next => exact List.Pairwise.nil
  next h0 =>
    split
    next => simp
    next h1 =>
      rw [List.pairwise_map]
      refine (List.pairwise_lt_range n).imp ?_
      intro i j hij
      have hn : 2 ≤ n := by omega
      have hn1 : (0 : ℚ) < (n : ℚ) - 1 := by
        have h2 : (2 : ℚ) ≤ (n : ℚ) := by exact_mod_cast hn
        linarith
      have hba : (0 : ℚ) ≤ b - a := by linarith
      have hij' : (i : ℚ) ≤ (j : ℚ) := by exact_mod_cast hij.le
      gcongr

theorem set_aperture_fields {α : Type} [Field α] (s : PState α)
    (a : Option (Tensor2 α)) (asz : Option ℕ) :
    (set_aperture s a asz).cfg = s.cfg ∧
    (set_aperture s a asz).distances = s.distances ∧
    (set_aperture s a asz).generated_kernels = s.generated_kernels ∧
    (set_aperture s a asz).kernels = s.kernels ∧
    (set_aperture s a asz).channel_power = s.channel_power := by
  cases a <;> exact ⟨rfl, rfl, rfl, rfl, rfl⟩

theorem init_cfg {α : Type} [Field α] (c : Config) (lcp ap : Option (Tensor2 α)) :
    (init c lcp ap).cfg = c := by
  cases ap <;> rfl

theorem init_generated {α : Type} [Field α] (c : Config) (lcp ap : Option (Tensor2 α)) :
    (init c lcp ap).generated_kernels = fun _ _ => false := by
  cases ap <;> rfl

theorem init_distances_eq {α : Type} [Field α] (c : Config) (lcp ap : Option (Tensor2 α)) :
    (init c lcp ap).distances = init_distances c := by
  cases ap <;> rfl

theorem init_distances_length {α : Type} [Field α] (c : Config)
    (lcp ap : Option (Tensor2 α)) :
    (init c lcp ap).distances.length = c.number_of_depth_layers := by
  rw [init_distances_eq]
  unfold init_distances
  rw [List.length_map, linspace_length]

theorem propCall_preserves {α : Type} [Field α] (G : KernelArgs → Tensor2 α)
    (ω : ℕ → α) (s : PState α) (f : Tensor2 α) (cid did : ℤ) :
    (propCall G ω s f cid did).2.1.cfg = s.cfg ∧
    (propCall G ω s f cid did).2.1.distances = s.distances ∧
    (propCall G ω s f cid did).2.1.channel_power = s.channel_power ∧
    (propCall G ω s f cid did).2.1.aperture = s.aperture := by
  unfold propCall
  repeat' split
  all_goals exact ⟨rfl, rfl, rfl, rfl⟩

theorem stepOp_cfg {α : Type} [Field α] (G : KernelArgs → Tensor2 α) (ω : ℕ → α)
    (s : PState α) (op : Op α) : (stepOp G ω s op).1.cfg = s.cfg := by
  cases op with
  | callOp f cid did => exact (propCall_preserves G ω s f cid did).1
  | setApertureOp a asz => exact (set_aperture_fields s a asz).1
  | setLaserPowersOp p => rfl

theorem stepOp_distances {α : Type} [Field α] (G : KernelArgs → Tensor2 α) (ω : ℕ → α)
    (s : PState α) (op : Op α) : (stepOp G ω s op).1.distances = s.distances := by
  cases op with
  | callOp f cid did => exact (propCall_preserves G ω s f cid did).2.1
  | setApertureOp a asz => exact (set_aperture_fields s a asz).2.1
  | setLaserPowersOp p => rfl

/-! ### Concrete fixtures used by witnesses and counterexamples -/

/-- A concrete collaborator standing in for `get_propagation_kernel`:
every kernel is a 2×2 all-ones tensor. -/
def Gq : KernelArgs → Tensor2 ℚ := fun _ => ⟨2, 2, fun _ _ => 1⟩

/-- A concrete stand-in for the FFT root of unity. -/
def ωq : ℕ → ℚ := fun _ => 1

/-- An all-ones rational tensor of the given shape. -/
def onesQ (m n : ℕ) : Tensor2 ℚ := ⟨m, n, fun _ _ => 1⟩

/-- A concrete configuration with the `forward` strategy. The numeric
values are whole rationals (their physical magnitude is immaterial to the
properties being witnessed, and whole values keep kernel reduction cheap). -/
def cfgForward : Config :=
  { resolution := (1, 1), wavelengths := [515],
    pixel_pitch := 8, resolution_factor := 1, number_of_frames := 1,
    number_of_depth_layers := 1, volume_depth := 1,
    image_location_offset := 5,
    propagation_type := "Bandlimited Angular Spectrum",
    propagator_type := "forward", zero_mode_distance := 3 }

/-- A concrete configuration with the `back and forth` strategy. -/
def cfgBackAndForth : Config :=
  { cfgForward with propagator_type := "back and forth" }

/-- A concrete configuration with an unrecognised propagator strategy. -/
def cfgSideways : Config :=
  { cfgForward with propagator_type := "sideways" }

/-- A concrete `forward` configuration with two channels and two depth
layers, for exercising index handling. -/
def cfgTwo : Config :=
  { cfgForward with wavelengths := [515, 639], number_of_depth_layers := 2 }

/-- A concrete configuration with non-square resolution (2, 3). -/
def cfgRect : Config :=
  { cfgForward with resolution := (2, 3) }

/-- A concrete configuration with resolution factor 2. -/
def cfgScale2 : Config :=
  { cfgForward with resolution_factor := 2 }

/-! ### C5 — depth schedule -/

/-- C5: the depth schedule computed at construction is exactly
`linspace(-volume_depth/2, volume_depth/2, number_of_depth_layers)` shifted
by `image_location_offset`; it has exactly `number_of_depth_layers`
entries; for `volume_depth ≥ 0` it is non-decreasing; and no operation of
the instance ever changes it after construction. -/
theorem C5_depth_schedule {α : Type} [Field α] (G : KernelArgs → Tensor2 α)
    (ω : ℕ → α) (c : Config) (lcp ap : Option (Tensor2 α)) :
    (init c lcp ap).distances =
      (linspace (-c.volume_depth / 2) (c.volume_depth / 2)
        c.number_of_depth_layers).map (fun d => d + c.image_location_offset) ∧
    (init c lcp ap).distances.length = c.number_of_depth_layers ∧
    (0 ≤ c.volume_depth →
      (init c lcp ap).distances.Pairwise (fun x y => x ≤ y)) ∧
    (∀ (s : PState α) (op : Op α), (stepOp G ω s op).1.distances = s.distances) := by
  refine ⟨init_distances_eq c lcp ap, init_distances_length c lcp ap, ?_,
    fun s op => stepOp_distances G ω s op⟩
  intro hv
  rw [init_distances_eq]
  unfold init_distances
  rw [List.pairwise_map]
  refine (linspace_pairwise _ _ _ (by linarith)).imp ?_
  intro x y hxy
  exact add_le_add_right hxy _

/-- Witness for C5 at a concrete configuration. -/
theorem C5_depth_schedule_witness :
    (0 : ℚ) ≤ cfgForward.volume_depth ∧
    (init cfgForward none none : PState ℚ).distances.Pairwise (fun x y => x ≤ y) :=
  ⟨by decide,
   (C5_depth_schedule Gq ωq cfgForward none none).2.2.1 (by decide)⟩

/-! ### C6 — default aperture -/

/-- C6 (amended): with `aperture = None` and `aperture_size = None`,
the stored aperture is a centered circular binary mask in a buffer of
padded shape (2·H·scale, 2·W·scale), whose diameter is
`max(H·scale, W·scale)` — the larger of the *scaled, unpadded* dimensions,
not of the padded ones. -/
theorem C6_default_aperture {α : Type} [Field α] (s : PState α) :
    (set_aperture s none none).aperture =
      circular_binary_mask (s.cfg.resolution.1 * s.cfg.resolution_factor * 2)
        (s.cfg.resolution.2 * s.cfg.resolution_factor * 2)
        (max (s.cfg.resolution.1 * s.cfg.resolution_factor)
             (s.cfg.resolution.2 * s.cfg.resolution_factor)) := rfl

/-- Counterexample to C6 as stated: for resolution (2, 3) and scale 1 the
stored default aperture is not the circular mask whose diameter is the
larger padded dimension `max(2·H·scale, 2·W·scale) = 6`; the corner entry
(0, 0) of the stored mask is 0 while the claimed mask has 1 there. -/
theorem C6_default_aperture_counterexample :
    ¬ ((init cfgRect none none : PState ℚ).aperture =
        circular_binary_mask (2 * 2 * 1) (2 * 3 * 1) (max (2 * 2 * 1) (2 * 3 * 1))) := by
  intro h
  have h0 := congrArg (fun t => Tensor2.entry t 0 0) h
  revert h0
  decide

/-! ### C3 — propagate shapes -/

/-- C3 (amended): for a kernel and aperture matching the padded field
shape, `propagate` returns a field of the input's unpadded shape (H, W),
and the padded intermediate buffer on which the transform, multiply and
inverse transform operate has shape exactly (2·H, 2·W) — twice the input
field's own shape per axis, independent of the configured resolution
factor. -/
theorem C3_propagate_shapes {α : Type} [Field α] (ω : ℕ → α) (A H f : Tensor2 α)
    (hAr : A.rows = 2 * f.rows) (hAc : A.cols = 2 * f.cols)
    (hHr : H.rows = 2 * f.rows) (hHc : H.cols = 2 * f.cols) :
    (propagate ω A f H).rows = f.rows ∧ (propagate ω A f H).cols = f.cols ∧
    (zero_pad f).rows = 2 * f.rows ∧ (zero_pad f).cols = 2 * f.cols := by
  refine ⟨?_, ?_, rfl, rfl⟩
  · simp only [propagate, crop_center, ifftshift, ifft2, fftshift, fft2, pmul,
      zero_pad, hAr, hHr]
    simp
  · simp only [propagate, crop_center, ifftshift, ifft2, fftshift, fft2, pmul,
      zero_pad, hAc, hHc]
    simp

/-- Witness for C3 (amended) at a concrete 1×1 field with matching 2×2
kernel and aperture. -/
theorem C3_propagate_shapes_witness :
    ((onesQ 2 2).rows = 2 * (onesQ 1 1).rows ∧
     (onesQ 2 2).cols = 2 * (onesQ 1 1).cols) ∧
    ((propagate ωq (onesQ 2 2) (onesQ 1 1) (onesQ 2 2)).rows = (onesQ 1 1).rows ∧
     (propagate ωq (onesQ 2 2) (onesQ 1 1) (onesQ 2 2)).cols = (onesQ 1 1).cols ∧
     (zero_pad (onesQ 1 1)).rows = 2 * (onesQ 1 1).rows ∧
     (zero_pad (onesQ 1 1)).cols = 2 * (onesQ 1 1).cols) :=
  ⟨⟨rfl, rfl⟩,
   C3_propagate_shapes ωq (onesQ 2 2) (onesQ 2 2) (onesQ 1 1) rfl rfl rfl rfl⟩

/-- Counterexample to C3 as stated: with the configured resolution factor 2
the padded intermediate buffer for a (1, 1) input field has shape (2, 2),
not (2·1·scale, 2·1·scale) = (4, 4). -/
theorem C3_propagate_shapes_counterexample :
    ¬ ((zero_pad (onesQ 1 1)).rows
          = 2 * (onesQ 1 1).rows * cfgScale2.resolution_factor ∧
       (zero_pad (onesQ 1 1)).cols
          = 2 * (onesQ 1 1).cols * cfgScale2.resolution_factor) := by
  decide

/-! ### C4 — linearity of the propagation engine -/

theorem zero_pad_sm {α : Type} [Field α] (a : α) (f : Tensor2 α) :
    zero_pad (sm a f) = sm a (zero_pad f) := by
  refine Tensor2.extEq rfl rfl ?_
  intro i j
  simp only [zero_pad, sm]
  split
  · rfl
  · exact (mul_zero a).symm

theorem fftshift_sm {α : Type} [Field α] (a : α) (f : Tensor2 α) :
    fftshift (sm a f) = sm a (fftshift f) := rfl

theorem ifftshift_sm {α : Type} [Field α] (a : α) (f : Tensor2 α) :
    ifftshift (sm a f) = sm a (ifftshift f) := rfl

theorem crop_center_sm {α : Type} [Field α] (a : α) (f : Tensor2 α) :
    crop_center (sm a f) = sm a (crop_center f) := rfl

theorem fft2_sm {α : Type} [Field α] (ω : ℕ → α) (a : α) (f : Tensor2 α) :
    fft2 ω (sm a f) = sm a (fft2 ω f) := by
  refine Tensor2.extEq rfl rfl ?_
  intro k l
  simp only [fft2, sm, Finset.mul_sum]
  refine Finset.sum_congr rfl fun j _ => Finset.sum_congr rfl fun m _ => by ring

theorem ifft2_sm {α : Type} [Field α] (ω : ℕ → α) (a : α) (f : Tensor2 α) :
    ifft2 ω (sm a f) = sm a (ifft2 ω f) := by
  refine Tensor2.extEq rfl rfl ?_
  intro j m
  simp only [ifft2, sm]
  rw [← mul_div_assoc]
  congr 1
  simp only [Finset.mul_sum]
  exact Finset.sum_congr rfl fun k _ => Finset.sum_congr rfl fun l _ => by ring

theorem pmul_sm {α : Type} [Field α] (a : α) (f g : Tensor2 α) :
    pmul f (sm a g) = sm a (pmul f g) := by
  refine Tensor2.extEq rfl rfl ?_
  intro i j
  simp only [pmul, sm]
  ring

/-- C4: `propagate` is linear in its field argument for fixed kernel and
aperture — scaling the input field by any scalar scales the output by the
same scalar, exactly, for an arbitrary root of unity; in particular an
all-zero input field yields an all-zero output field. -/
theorem C4_propagate_linear {α : Type} [Field α] (ω : ℕ → α)
    (A H f : Tensor2 α) (a : α) (m n : ℕ) :
    propagate ω A (sm a f) H = sm a (propagate ω A f H) ∧
    (∀ i j, (propagate ω A (zeros α m n) H).entry i j = 0) := by
  constructor
  · unfold propagate
    rw [zero_pad_sm, fftshift_sm, fft2_sm, fftshift_sm, pmul_sm, ifftshift_sm,
      ifft2_sm, ifftshift_sm, crop_center_sm]
  · intro i j
    simp [propagate, crop_center, ifftshift, ifft2, fftshift, fft2, pmul,
      zeros, zero_pad]

/-! ### Lemmas about Python indexing -/

theorem pyIdx_none_of_ge (len : ℕ) (i : ℤ) (h : (len : ℤ) ≤ i) :
    pyIdx len i = none := by
  unfold pyIdx
  have h1 : ¬ (0 ≤ i ∧ i < (len : ℤ)) := by omega
  have h2 : ¬ (-(len : ℤ) ≤ i ∧ i < 0) := by omega
  simp [h1, h2]

theorem pyIdx_neg (len : ℕ) (i : ℤ) (h1 : -(len : ℤ) ≤ i) (h2 : i < 0) :
    pyIdx len i = some ((len : ℤ) + i).toNat := by
  unfold pyIdx
  have h3 : ¬ (0 ≤ i ∧ i < (len : ℤ)) := by omega
  simp [h3, h1, h2]

/-! ### C2 — back-and-forth kernel composition -/

/-- C2: when `propagator_type` is `back and forth`, the kernel stored in
the cache on first use for resolved pair (d, c) is the elementwise complex
product of two collaborator-generated transfer functions: one at distance
`zero_mode_distance` and one at
`-(zero_mode_distance + image_location_offset - distances[d])`, both with
wavelength `wavelengths[c]`, the same padded shape (2·rows, 2·cols), the
same pixel pitch, propagation model and scale. -/
theorem C2_back_and_forth_composition {α : Type} [Field α]
    (G : KernelArgs → Tensor2 α) (ω : ℕ → α) (s : PState α) (f : Tensor2 α)
    (cid did : ℤ) (d c : ℕ)
    (hd : pyIdx s.distances.length did = some d)
    (hc : pyIdx s.cfg.number_of_channels cid = some c)
    (hflag : s.generated_kernels d c = false)
    (hty : s.cfg.propagator_type = "back and forth") :
    (propCall G ω s f cid did).2.1.kernels d c =
      pmul
        (G ⟨f.rows * 2, f.cols * 2, s.cfg.pixel_pitch, s.cfg.wavelengths.getD c 0,
            s.cfg.zero_mode_distance, s.cfg.propagation_type,
            s.cfg.resolution_factor⟩)
        (G ⟨f.rows * 2, f.cols * 2, s.cfg.pixel_pitch, s.cfg.wavelengths.getD c 0,
            -(s.cfg.zero_mode_distance + s.cfg.image_location_offset
              - s.distances.getD d 0),
            s.cfg.propagation_type, s.cfg.resolution_factor⟩) := by
  simp [propCall, hd, hc, hflag, hty]

/-- Witness for C2 at a concrete back-and-forth configuration. -/
theorem C2_back_and_forth_composition_witness :
    (pyIdx (init cfgBackAndForth none none : PState ℚ).distances.length 0 = some 0 ∧
     pyIdx (init cfgBackAndForth none none : PState ℚ).cfg.number_of_channels 0 = some 0 ∧
     (init cfgBackAndForth none none : PState ℚ).generated_kernels 0 0 = false ∧
     (init cfgBackAndForth none none : PState ℚ).cfg.propagator_type = "back and forth") ∧
    (propCall Gq ωq (init cfgBackAndForth none none) (onesQ 1 1) 0 0).2.1.kernels 0 0 =
      pmul
        (Gq ⟨(onesQ 1 1).rows * 2, (onesQ 1 1).cols * 2,
             (init cfgBackAndForth none none : PState ℚ).cfg.pixel_pitch,
             (init cfgBackAndForth none none : PState ℚ).cfg.wavelengths.getD 0 0,
             (init cfgBackAndForth none none : PState ℚ).cfg.zero_mode_distance,
             (init cfgBackAndForth none none : PState ℚ).cfg.propagation_type,
             (init cfgBackAndForth none none : PState ℚ).cfg.resolution_factor⟩)
        (Gq ⟨(onesQ 1 1).rows * 2, (onesQ 1 1).cols * 2,
             (init cfgBackAndForth none none : PState ℚ).cfg.pixel_pitch,
             (init cfgBackAndForth none none : PState ℚ).cfg.wavelengths.getD 0 0,
             -((init cfgBackAndForth none none : PState ℚ).cfg.zero_mode_distance
               + (init cfgBackAndForth none none : PState ℚ).cfg.image_location_offset
               - (init cfgBackAndForth none none : PState ℚ).distances.getD 0 0),
             (init cfgBackAndForth none none : PState ℚ).cfg.propagation_type,
             (init cfgBackAndForth none none : PState ℚ).cfg.resolution_factor⟩) :=
  ⟨⟨rfl, rfl, rfl, rfl⟩,
   C2_back_and_forth_composition Gq ωq (init cfgBackAndForth none none)
     (onesQ 1 1) 0 0 0 0 rfl rfl rfl rfl⟩

/-! ### C7 — unknown propagator type -/

/-- C7: when `propagator_type` is neither `forward` nor `back and forth`,
a `__call__` for a not-yet-cached resolved pair fails (in the source the
variable `H` is never assigned, surfacing the specification's
`UnknownPropagatorType` condition) and returns no propagated field; the
state is unchanged and no collaborator invocation is made. Construction
performs no validation, so the failure surfaces only here. -/
theorem C7_unknown_propagator_type {α : Type} [Field α]
    (G : KernelArgs → Tensor2 α) (ω : ℕ → α) (s : PState α) (f : Tensor2 α)
    (cid did : ℤ) (d c : ℕ)
    (hd : pyIdx s.distances.length did = some d)
    (hc : pyIdx s.cfg.number_of_channels cid = some c)
    (hflag : s.generated_kernels d c = false)
    (h1 : s.cfg.propagator_type ≠ "forward")
    (h2 : s.cfg.propagator_type ≠ "back and forth") :
    propCall G ω s f cid did = (Except.error PErr.unknownPropagatorType, s, []) := by
  simp [propCall, hd, hc, hflag, h1, h2]

/-- Witness for C7: a propagator constructed with type `sideways` fails on
its first call. -/
theorem C7_unknown_propagator_type_witness :
    ((init cfgSideways none none : PState ℚ).cfg.propagator_type ≠ "forward" ∧
     (init cfgSideways none none : PState ℚ).cfg.propagator_type ≠ "back and forth") ∧
    propCall Gq ωq (init cfgSideways none none) (onesQ 1 1) 0 0 =
      (Except.error PErr.unknownPropagatorType, init cfgSideways none none, []) :=
  ⟨⟨by decide, by decide⟩,
   C7_unknown_propagator_type Gq ωq (init cfgSideways none none) (onesQ 1 1)
     0 0 0 0 rfl rfl rfl (by decide) (by decide)⟩

/-! ### C8 — out-of-range indices -/

/-- C8: a `__call__` whose `channel_id` is at least the configured channel
count fails with the channel index error (provided the depth index itself
resolves, the depth lookup coming first in the source), and a `__call__`
whose `depth_id` is at least the configured depth-layer count fails with
the depth index error; in both cases no propagated field is returned and
the state is unchanged. -/
theorem C8_index_errors {α : Type} [Field α] (G : KernelArgs → Tensor2 α)
    (ω : ℕ → α) (s : PState α) (f : Tensor2 α) (cid did : ℤ)
    (hlen : s.distances.length = s.cfg.number_of_depth_layers) :
    (∀ d : ℕ, pyIdx s.distances.length did = some d →
       (s.cfg.number_of_channels : ℤ) ≤ cid →
       propCall G ω s f cid did = (Except.error PErr.channelIndexError, s, [])) ∧
    ((s.cfg.number_of_depth_layers : ℤ) ≤ did →
       propCall G ω s f cid did = (Except.error PErr.depthIndexError, s, [])) := by
  constructor
  · intro d hd hcid
    have hc : pyIdx s.cfg.number_of_channels cid = none :=
      pyIdx_none_of_ge _ _ hcid
    simp [propCall, hd, hc]
  · intro hdid
    have hd : pyIdx s.distances.length did = none := by
      rw [hlen]
      exact pyIdx_none_of_ge _ _ hdid
    simp [propCall, hd]

/-- Witness for C8: with one channel and one depth layer, `channel_id = 5`
raises the channel index error and `depth_id = 7` the depth index error. -/
theorem C8_index_errors_witness :
    ((init cfgForward none none : PState ℚ).distances.length
        = (init cfgForward none none : PState ℚ).cfg.number_of_depth_layers ∧
     pyIdx (init cfgForward none none : PState ℚ).distances.length 0 = some 0 ∧
     ((init cfgForward none none : PState ℚ).cfg.number_of_channels : ℤ) ≤ 5 ∧
     ((init cfgForward none none : PState ℚ).cfg.number_of_depth_layers : ℤ) ≤ 7) ∧
    propCall Gq ωq (init cfgForward none none) (onesQ 1 1) 5 0 =
      (Except.error PErr.channelIndexError, init cfgForward none none, []) ∧
    propCall Gq ωq (init cfgForward none none) (onesQ 1 1) 0 7 =
      (Except.error PErr.depthIndexError, init cfgForward none none, []) :=
  ⟨⟨rfl, rfl, by decide, by decide⟩,
   (C8_index_errors Gq ωq (init cfgForward none none) (onesQ 1 1) 5 0 rfl).1
     0 rfl (by decide),
   (C8_index_errors Gq ωq (init cfgForward none none) (onesQ 1 1) 0 7 rfl).2
     (by decide)⟩

/-! ### C10 — negative indices wrap around -/

/-- C10: negative indices within `[-number_of_channels, -1]` and
`[-number_of_depth_layers, -1]` are accepted rather than rejected: the
call succeeds, and the single collaborator invocation it performs (for a
fresh instance with the `forward` strategy) uses
`wavelengths[number_of_channels + channel_id]` and
`distances[number_of_depth_layers + depth_id]`. -/
theorem C10_negative_indices {α : Type} [Field α] (G : KernelArgs → Tensor2 α)
    (ω : ℕ → α) (c : Config) (lcp ap : Option (Tensor2 α)) (f : Tensor2 α)
    (cid did : ℤ)
    (hc1 : -(c.number_of_channels : ℤ) ≤ cid) (hc2 : cid < 0)
    (hd1 : -(c.number_of_depth_layers : ℤ) ≤ did) (hd2 : did < 0)
    (hty : c.propagator_type = "forward") :
    (∃ out, (propCall G ω (init c lcp ap) f cid did).1 = Except.ok out) ∧
    (propCall G ω (init c lcp ap) f cid did).2.2 =
      [((((c.number_of_depth_layers : ℤ) + did).toNat,
         ((c.number_of_channels : ℤ) + cid).toNat),
        ⟨f.rows * 2, f.cols * 2, c.pixel_pitch,
         c.wavelengths.getD ((c.number_of_channels : ℤ) + cid).toNat 0,
         (init c lcp ap).distances.getD
           ((c.number_of_depth_layers : ℤ) + did).toNat 0,
         c.propagation_type, c.resolution_factor⟩)] := by
  have hd : pyIdx (init c lcp ap).distances.length did
      = some ((c.number_of_depth_layers : ℤ) + did).toNat := by
    rw [init_distances_length c lcp ap]
    exact pyIdx_neg _ _ hd1 hd2
  have hcc : pyIdx (init c lcp ap).cfg.number_of_channels cid
      = some ((c.number_of_channels : ℤ) + cid).toNat := by
    rw [init_cfg c lcp ap]
    exact pyIdx_neg _ _ hc1 hc2
  have hgen := init_generated c lcp ap
  have hcfg := init_cfg c lcp ap
  rw [hcfg] at hcc
  simp [propCall, hd, hcc, hgen, hcfg, hty]

/-- Witness for C10: with two channels and two depth layers,
`channel_id = -1` and `depth_id = -1` select the last channel and the last
depth layer. -/
theorem C10_negative_indices_witness :
    (-((cfgTwo.number_of_channels : ℤ)) ≤ -1 ∧ (-1 : ℤ) < 0 ∧
     -((cfgTwo.number_of_depth_layers : ℤ)) ≤ -1 ∧
     cfgTwo.propagator_type = "forward") ∧
    ((∃ out, (propCall Gq ωq (init cfgTwo none none) (onesQ 1 1) (-1) (-1)).1
        = Except.ok out) ∧
     (propCall Gq ωq (init cfgTwo none none) (onesQ 1 1) (-1) (-1)).2.2 =
      [((((cfgTwo.number_of_depth_layers : ℤ) + (-1)).toNat,
         ((cfgTwo.number_of_channels : ℤ) + (-1)).toNat),
        ⟨(onesQ 1 1).rows * 2, (onesQ 1 1).cols * 2, cfgTwo.pixel_pitch,
         cfgTwo.wavelengths.getD ((cfgTwo.number_of_channels : ℤ) + (-1)).toNat 0,
         (init cfgTwo none none : PState ℚ).distances.getD
           ((cfgTwo.number_of_depth_layers : ℤ) + (-1)).toNat 0,
         cfgTwo.propagation_type, cfgTwo.resolution_factor⟩)]) :=
  ⟨⟨by decide, by decide, by decide, rfl⟩,
   C10_negative_indices Gq ωq cfgTwo none none (onesQ 1 1) (-1) (-1)
     (by decide) (by decide) (by decide) (by decide) rfl⟩

/-! ### C9 — frame conditions and cache stability -/

theorem propCall_gen_mono {α : Type} [Field α] (G : KernelArgs → Tensor2 α)
    (ω : ℕ → α) (s : PState α) (f : Tensor2 α) (cid did : ℤ) (d c : ℕ)
    (h : s.generated_kernels d c = true) :
    (propCall G ω s f cid did).2.1.generated_kernels d c = true ∧
    (propCall G ω s f cid did).2.1.kernels d c = s.kernels d c := by
  unfold propCall
  split
  · exact ⟨h, rfl⟩
  rename_i d0 hd0
  split
  · exact ⟨h, rfl⟩
  rename_i c0 hc0
  split
  · exact ⟨h, rfl⟩
  rename_i hflag
  split
  · by_cases hdc : d = d0 ∧ c = c0
    · obtain ⟨h1, h2⟩ := hdc
      subst h1
      subst h2
      rw [h] at hflag
      exact absurd rfl hflag
    · exact ⟨by simp [hdc, h], by simp [hdc]⟩
  split
  · by_cases hdc : d = d0 ∧ c = c0
    · obtain ⟨h1, h2⟩ := hdc
      subst h1
      subst h2
      rw [h] at hflag
      exact absurd rfl hflag
    · exact ⟨by simp [hdc, h], by simp [hdc]⟩
  · exact ⟨h, rfl⟩

/-- C9: `set_aperture` mutates only the stored aperture — the kernel
cache, the generated flags, the depth schedule and the channel power
matrix are unchanged by it; and across every operation of the instance, a
cache slot whose generated flag is true keeps its flag and its stored
kernel unchanged. -/
theorem C9_set_aperture_frame {α : Type} [Field α] (G : KernelArgs → Tensor2 α)
    (ω : ℕ → α) :
    (∀ (s : PState α) (a : Option (Tensor2 α)) (asz : Option ℕ),
       (set_aperture s a asz).kernels = s.kernels ∧
       (set_aperture s a asz).generated_kernels = s.generated_kernels ∧
       (set_aperture s a asz).distances = s.distances ∧
       (set_aperture s a asz).channel_power = s.channel_power) ∧
    (∀ (s : PState α) (op : Op α) (d c : ℕ),
       s.generated_kernels d c = true →
       (stepOp G ω s op).1.generated_kernels d c = true ∧
       (stepOp G ω s op).1.kernels d c = s.kernels d c) := by
  constructor
  · intro s a asz
    obtain ⟨h1, h2, h3, h4, h5⟩ := set_aperture_fields s a asz
    exact ⟨h4, h3, h2, h5⟩
  · intro s op d c h
    cases op with
    | callOp f cid did => exact propCall_gen_mono G ω s f cid did d c h
    | setApertureOp a asz =>
      obtain ⟨h1, h2, h3, h4, h5⟩ := set_aperture_fields s a asz
      constructor
      · rw [show (stepOp G ω s (Op.setApertureOp a asz)).1 = set_aperture s a asz from rfl, h3]
        exact h
      · rw [show (stepOp G ω s (Op.setApertureOp a asz)).1 = set_aperture s a asz from rfl, h4]
    | setLaserPowersOp p => exact ⟨h, rfl⟩

/-- A concrete state whose (0, 0) cache slot is marked generated, for the
C9 witness. -/
def sGen : PState ℚ :=
  { init cfgForward none none with generated_kernels := fun _ _ => true }

/-- Witness for C9 at a concrete state with a generated slot. -/
theorem C9_set_aperture_frame_witness :
    sGen.generated_kernels 0 0 = true ∧
    ((stepOp Gq ωq sGen (Op.setApertureOp none none)).1.generated_kernels 0 0 = true ∧
     (stepOp Gq ωq sGen (Op.setApertureOp none none)).1.kernels 0 0 = sGen.kernels 0 0) :=
  ⟨rfl, (C9_set_aperture_frame Gq ωq).2 sGen (Op.setApertureOp none none) 0 0 rfl⟩

/-! ### C1 — the collaborator runs at most once per pair (per leg) -/

theorem countCalls_append (p : ℕ × ℕ) (l1 l2 : List ((ℕ × ℕ) × KernelArgs)) :
    countCalls p (l1 ++ l2) = countCalls p l1 + countCalls p l2 := by
  unfold countCalls
  exact List.countP_append _ _ _

theorem propCall_count_bound {α : Type} [Field α] (G : KernelArgs → Tensor2 α)
    (ω : ℕ → α) (s : PState α) (f : Tensor2 α) (cid did : ℤ) (p : ℕ × ℕ) :
    countCalls p (propCall G ω s f cid did).2.2 +
      (if (propCall G ω s f cid did).2.1.generated_kernels p.1 p.2 then 0
       else legs s.cfg) ≤
      (if s.generated_kernels p.1 p.2 then 0 else legs s.cfg) := by
  obtain ⟨p1, p2⟩ := p
  unfold propCall
  split
  · simp [countCalls]
  rename_i d0 hd0
  split
  · simp [countCalls]
  rename_i c0 hc0
  split
  · simp [countCalls]
  rename_i hflag
  rw [Bool.not_eq_true] at hflag
  split
  · rename_i hf
    by_cases hdc : p1 = d0 ∧ p2 = c0
    · obtain ⟨h1, h2⟩ := hdc
      subst h1
      subst h2
      simp [countCalls, legs, hf, hflag]
    · simp [countCalls, hdc]
      intro h1 h2
      exact hdc ⟨h1.symm, h2.symm⟩
  split
  · rename_i hnf hb
    by_cases hdc : p1 = d0 ∧ p2 = c0
    · obtain ⟨h1, h2⟩ := hdc
      subst h1
      subst h2
      simp [countCalls, legs, hnf, hflag]
    · simp [countCalls, hdc]
      intro h1 h2
      exact hdc ⟨h1.symm, h2.symm⟩
  · simp [countCalls]

theorem stepOp_count_bound {α : Type} [Field α] (G : KernelArgs → Tensor2 α)
    (ω : ℕ → α) (s : PState α) (op : Op α) (p : ℕ × ℕ) :
    countCalls p (stepOp G ω s op).2 +
      (if (stepOp G ω s op).1.generated_kernels p.1 p.2 then 0 else legs s.cfg) ≤
      (if s.generated_kernels p.1 p.2 then 0 else legs s.cfg) := by
  cases op with
  | callOp f cid did => exact propCall_count_bound G ω s f cid did p
  | setApertureOp a asz =>
    have h := (set_aperture_fields s a asz).2.2.1
    simp [stepOp, countCalls, h]
  | setLaserPowersOp q => simp [stepOp, countCalls]

theorem runOps_count_bound {α : Type} [Field α] (G : KernelArgs → Tensor2 α)
    (ω : ℕ → α) (ops : List (Op α)) :
    ∀ (s : PState α) (p : ℕ × ℕ),
      countCalls p (runOps G ω s ops).2 +
        (if (runOps G ω s ops).1.generated_kernels p.1 p.2 then 0
         else legs s.cfg) ≤
        (if s.generated_kernels p.1 p.2 then 0 else legs s.cfg) := by
  induction ops with
  | nil =>
    intro s p
    simp [runOps, countCalls]
  | cons op ops ih =>
    intro s p
    have hstep := stepOp_count_bound G ω s op p
    have hrest := ih (stepOp G ω s op).1 p
    rw [stepOp_cfg G ω s op] at hrest
    simp only [runOps]
    rw [countCalls_append]
    omega

/-- C1: for a fixed instance and any sequence of operations, the external
collaborator `get_propagation_kernel` is invoked at most once per distinct
resolved (depth, channel) pair when the strategy is `forward`, and at most
twice (once per leg) when it is `back and forth`: generation only runs
while the pair's `generated_kernels` flag is false, and the flag is set
immediately after the first generation and never cleared. -/
theorem C1_generator_runs_once_per_pair {α : Type} [Field α]
    (G : KernelArgs → Tensor2 α) (ω : ℕ → α) (c : Config)
    (lcp ap : Option (Tensor2 α)) (ops : List (Op α)) (p : ℕ × ℕ) :
    (c.propagator_type = "forward" →
       countCalls p (runOps G ω (init c lcp ap) ops).2 ≤ 1) ∧
    (c.propagator_type = "back and forth" →
       countCalls p (runOps G ω (init c lcp ap) ops).2 ≤ 2) := by
  have h := runOps_count_bound G ω ops (init c lcp ap) p
  rw [init_generated c lcp ap, init_cfg c lcp ap] at h
  simp only [Bool.false_eq_true, if_false] at h
  constructor
  · intro hf
    have hl : legs c = 1 := by simp [legs, hf]
    rw [hl] at h
    omega
  · intro hb
    have hl : legs c = 2 := by
      have : c.propagator_type ≠ "forward" := by
        rw [hb]
        decide
      simp [legs, this]
    rw [hl] at h
    omega

/-- Witness for C1: a concrete forward instance run over a batch of calls
invokes the collaborator at most once for the pair (0, 0). -/
theorem C1_generator_runs_once_per_pair_witness :
    cfgForward.propagator_type = "forward" ∧
    countCalls (0, 0)
      (runOps Gq ωq (init cfgForward none none)
        [Op.callOp (onesQ 1 1) 0 0, Op.callOp (onesQ 1 1) 0 0,
         Op.setApertureOp none none, Op.callOp (onesQ 1 1) 0 0]).2 ≤ 1 :=
  ⟨rfl,
   (C1_generator_runs_once_per_pair Gq ωq cfgForward none none
     [Op.callOp (onesQ 1 1) 0 0, Op.callOp (onesQ 1 1) 0 0,
      Op.setApertureOp none none, Op.callOp (onesQ 1 1) 0 0] (0, 0)).1 rfl⟩
